import Mathlib

/-!
Verification development for the user_sgi platform driver (src/user_sgi.c).

The driver is embedded shallowly: its process-wide globals (`ipi_dev`,
`ipi_count`), the per-device drvdata and the externally visible resources
(the registered SGI handler, the sysfs attribute `count`) form one explicit
`DriverState`; each C function becomes a Lean function threading that state.
Machine arithmetic on the `u32` counter is modelled as `Nat` reduced
modulo 2^32.  Outcomes of external primitives that can fail
(`devm_kzalloc`, `of_property_read_u32`, `set_ipi_handler`,
`device_create_file`) are inputs to the embedded `user_sgi_probe`.

To reason about ordering requirements (teardown order, handler step order)
every externally visible action appends an `Event` to a log carried in the
state, so "step A happens before step B" is list order in the log.

The read-modify-write of `ipi_count` performed by `handle_ipi` is a plain
load followed by a release store, not an atomic increment; its interleaved
multi-core semantics is modelled separately at the granularity of those two
memory accesses (`HandlerAccess`, `runAccessList`).
-/

namespace UserSgi

/-- Modulus 2^32 of the u32 counter. -/
def U32_MOD : Nat := 4294967296

/-- Threshold 2^31, the first u32 value whose "%d" (signed) rendering is
negative. -/
def INT32_HALF : Nat := 2147483648

/-- Devices are abstract identities; `&pdev->dev` becomes a `Device`. -/
abbrev Device := Nat

/-- errno value ENOMEM (returned negated, as in the kernel). -/
def ENOMEM : Int := 12

/-- errno value EBUSY (returned negated, as in the kernel). -/
def EBUSY : Int := 16

/-- Externally visible actions of the driver, in program order.  Each
constructor corresponds to one primitive call site in src/user_sgi.c. -/
inductive Event where
  /-- devm_kzalloc + platform_set_drvdata succeeded in allocate_device_data. -/
  | allocState
  /-- the platform core releases the devm allocation (after probe failure or
      after remove returns). -/
  | releaseState
  /-- smp_store_release(&ipi_dev, d). -/
  | storeDeviceReference (d : Option Device)
  /-- smp_load_acquire(&ipi_dev) observed d (in handle_ipi). -/
  | loadDeviceReference (d : Option Device)
  /-- set_ipi_handler(src, handle_ipi, "user sgi") succeeded. -/
  | registerHandler (src : Nat)
  /-- clear_ipi_handler(src). -/
  | unregisterHandler (src : Nat)
  /-- device_create_file(&pdev->dev, &dev_attr_count) succeeded. -/
  | createAttribute
  /-- device_remove_file(&pdev->dev, &dev_attr_count). -/
  | destroyAttribute
  /-- smp_store_release(&ipi_count, ipi_count + 1) wrote newVal. -/
  | incrementCounter (newVal : Nat)
  /-- sysfs_notify(&d->kobj, NULL, attrName). -/
  | signalNotification (d : Device) (attrName : String)
deriving DecidableEq

/-- Globals of the driver, the per-instance drvdata, the state of the two
external registries it uses (SGI dispatch, sysfs attribute), and the event
log. -/
structure DriverState where
  /-- static struct device *ipi_dev = NULL. -/
  ipi_dev : Option Device := none
  /-- static u32 ipi_count = 0 (kept < 2^32 by every update). -/
  ipi_count : Nat := 0
  /-- platform drvdata: the allocated user_sgi_data, holding ipi_number;
      `none` when not allocated. -/
  drvdata : Option Nat := none
  /-- the SGI source id for which handle_ipi is currently registered with
      the dispatch primitive, if any. -/
  handlerRegistration : Option Nat := none
  /-- whether the sysfs attribute `count` currently exists. -/
  attrExists : Bool := false
  /-- log of externally visible actions, oldest first. -/
  log : List Event := []
deriving DecidableEq

/-- State at module load: both globals at their static initializers, nothing
allocated or registered. -/
def initState : DriverState := {}

/-- Append one event to the log. -/
def logEvent (s : DriverState) (e : Event) : DriverState :=
  { s with log := s.log ++ [e] }

/-- Two's-complement reinterpretation performed by printing a u32 with the
"%d" (signed int) conversion, as count_show does. -/
def printedAsInt (v : Nat) : Int :=
  if v % U32_MOD < INT32_HALF then ((v % U32_MOD : Nat) : Int)
  else ((v % U32_MOD : Nat) : Int) - (U32_MOD : Int)

/-- count_show: snprintf(buf, PAGE_SIZE, "%d", smp_load_acquire(&ipi_count)).
The decimal text of a 32-bit int takes at most 11 characters, far below
PAGE_SIZE, so snprintf never truncates: the attribute read returns exactly
the "%d" rendering of the counter, with no padding. -/
def count_show (s : DriverState) : String :=
  toString (printedAsInt s.ipi_count)

/-- Decimal text of the current unsigned 32-bit counter value.  This is the
read result as the specification describes it ("the current decimal value of
SharedCounter" of an unsigned 32-bit counter), written for comparison with
`count_show`. -/
def count_show_spec (s : DriverState) : String :=
  toString (s.ipi_count % U32_MOD)

/-- handle_ipi: release-store ipi_count + 1, acquire-load ipi_dev, and if the
loaded reference is non-null call sysfs_notify on attribute "count"; if it is
null, return.  This is the sequential (single-invocation) semantics; the
function is total, so no error can be raised from this path. -/
def handle_ipi (s : DriverState) : DriverState :=
  let newCount := (s.ipi_count + 1) % U32_MOD
  let s1 := logEvent { s with ipi_count := newCount } (.incrementCounter newCount)
  let dev := s1.ipi_dev
  let s2 := logEvent s1 (.loadDeviceReference dev)
  match dev with
  | none => s2
  | some d => logEvent s2 (.signalNotification d "count")

/-- allocate_device_data: devm_kzalloc a zeroed user_sgi_data and attach it
as drvdata; when devm_kzalloc returns NULL (`allocOk = false`), return
-ENOMEM with nothing changed. -/
def allocate_device_data (allocOk : Bool) (s : DriverState) : Int × DriverState :=
  if allocOk then (0, logEvent { s with drvdata := some 0 } .allocState)
  else (-ENOMEM, s)

/-- get_ipi_number: of_property_read_u32(node, "ipi_number", &data->ipi_number).
`prop` is the device-tree lookup outcome: the property value on success, a
negative errno on failure (property missing or malformed).  On success the
value is stored into the drvdata as a u32. -/
def get_ipi_number (prop : Except Int Nat) (s : DriverState) : Int × DriverState :=
  match prop with
  | .ok n => (0, { s with drvdata := some (n % U32_MOD) })
  | .error e => (e, s)

/-- External dispatch primitive set_ipi_handler(src, handle_ipi, "user sgi"):
registers the handler for source `src` and returns 0 when the source is free
(`sourceFree = true`); returns nonzero with nothing registered when the
source is already owned. -/
def set_ipi_handler (sourceFree : Bool) (src : Nat) (s : DriverState) : Int × DriverState :=
  if sourceFree then (0, logEvent { s with handlerRegistration := some src } (.registerHandler src))
  else (-EBUSY, s)

/-- External dispatch primitive clear_ipi_handler(src): removes the handler
registration for source `src` (assumed infallible). -/
def clear_ipi_handler (src : Nat) (s : DriverState) : DriverState :=
  logEvent
    { s with handlerRegistration :=
        if s.handlerRegistration = some src then none else s.handlerRegistration }
    (.unregisterHandler src)

/-- device_create_file(&pdev->dev, &dev_attr_count): creates the sysfs
attribute and returns 0, or fails returning the nonzero `result` with no
attribute created. -/
def device_create_file (result : Int) (s : DriverState) : Int × DriverState :=
  if result = 0 then (0, logEvent { s with attrExists := true } .createAttribute)
  else (result, s)

/-- device_remove_file(&pdev->dev, &dev_attr_count): destroys the sysfs
attribute (assumed infallible). -/
def device_remove_file (s : DriverState) : DriverState :=
  logEvent { s with attrExists := false } .destroyAttribute

/-- release_after_ipi: smp_store_release(&ipi_dev, NULL), then
clear_ipi_handler on the ipi_number held in drvdata, then return `result`
unchanged.  Callers run it only after allocate_device_data succeeded, so the
drvdata dereference (platform_get_drvdata(pdev)->ipi_number) is modelled by
`Option.getD 0`. -/
def release_after_ipi (s : DriverState) (result : Int) : Int × DriverState :=
  let s1 := logEvent { s with ipi_dev := none } (.storeDeviceReference none)
  let s2 := clear_ipi_handler (s1.drvdata.getD 0) s1
  (result, s2)

/-- release_after_attribute_count: device_remove_file, then release_after_ipi,
returning `result` unchanged. -/
def release_after_attribute_count (s : DriverState) (result : Int) : Int × DriverState :=
  release_after_ipi (device_remove_file s) result

/-- Outcomes of the external primitives a probe run encounters, in call
order. -/
structure ProbeEnv where
  /-- devm_kzalloc returns non-NULL. -/
  allocOk : Bool
  /-- of_property_read_u32 outcome for "ipi_number". -/
  ipiNumberProp : Except Int Nat
  /-- set_ipi_handler returns 0 (source id not already owned). -/
  sourceFree : Bool
  /-- device_create_file return value. -/
  createFileResult : Int

/-- user_sgi_probe, line for line: allocate drvdata (failure returned as is),
read ipi_number (negative result returned as is), release-store ipi_dev :=
&pdev->dev, set_ipi_handler (failure returns -EBUSY — note: without clearing
ipi_dev), device_create_file (failure returns through release_after_ipi),
success returns 0. -/
def user_sgi_probe (env : ProbeEnv) (pdev : Device) (s : DriverState) : Int × DriverState :=
  let ar := allocate_device_data env.allocOk s
  if ar.1 ≠ 0 then ar
  else
    let gr := get_ipi_number env.ipiNumberProp ar.2
    if gr.1 < 0 then gr
    else
      let s2 := logEvent { gr.2 with ipi_dev := some pdev } (.storeDeviceReference (some pdev))
      let sr := set_ipi_handler env.sourceFree (s2.drvdata.getD 0) s2
      if sr.1 ≠ 0 then (-EBUSY, sr.2)
      else
        let cr := device_create_file env.createFileResult sr.2
        if cr.1 ≠ 0 then release_after_ipi cr.2 cr.1
        else (0, cr.2)

/-- user_sgi_remove: release_after_attribute_count(pdev, 0). -/
def user_sgi_remove (s : DriverState) : Int × DriverState :=
  release_after_attribute_count s 0

/-- devm contract of the platform core: every devm allocation of the device
is released after its probe fails or after its remove returns. -/
def devm_release (s : DriverState) : DriverState :=
  logEvent { s with drvdata := none } .releaseState

/-- A probe invocation as driven by the platform core: run user_sgi_probe;
when it fails, the core releases the devm allocations before the device is
left unbound. -/
def framework_probe (env : ProbeEnv) (pdev : Device) (s : DriverState) : Int × DriverState :=
  let r := user_sgi_probe env pdev s
  if r.1 ≠ 0 then (r.1, devm_release r.2) else r

/-- A remove invocation as driven by the platform core: run user_sgi_remove,
then the core releases the devm allocations. -/
def framework_remove (s : DriverState) : Int × DriverState :=
  let r := user_sgi_remove s
  (r.1, devm_release r.2)

/-- The ipi_count update of handle_ipi split into its two memory accesses:
smp_store_release(&ipi_count, ipi_count + 1) is a plain load of ipi_count
into a core-local register followed by a release store of the loaded value
plus one — not an atomic read-modify-write — so invocations running on
different cores interleave at exactly this granularity. -/
inductive HandlerAccess where
  /-- the plain load of ipi_count by the invocation on core `core`. -/
  | loadCount (core : Nat)
  /-- the release store of (loaded value + 1) by the invocation on core
      `core`. -/
  | storeCountPlusOne (core : Nat)
deriving DecidableEq

/-- The counter location together with a local register per core holding
the value loaded by the in-flight handler invocation on that core (none
before its load). -/
structure CounterMachine where
  counter : Nat
  regs : List (Option Nat)
deriving DecidableEq

/-- Effect of one memory access on the counter machine.  A store by a core
whose load has not happened yet (an ill-formed schedule) changes nothing. -/
def accessStep (m : CounterMachine) (a : HandlerAccess) : CounterMachine :=
  match a with
  | .loadCount i => { m with regs := m.regs.set i (some m.counter) }
  | .storeCountPlusOne i =>
      match m.regs.get? i with
      | some (some v) => { m with counter := (v + 1) % U32_MOD }
      | _ => m

/-- Run a schedule of memory accesses, oldest first. -/
def runAccessList (m : CounterMachine) (l : List HandlerAccess) : CounterMachine :=
  l.foldl accessStep m

/-- The two memory accesses one handle_ipi invocation on core `core`
performs on ipi_count, in program order. -/
def handlerAccessSeq (core : Nat) : List HandlerAccess :=
  [.loadCount core, .storeCountPlusOne core]

/-- A schedule `zs` is an interleaving of `xs` and `ys` when it merges the
two sequences keeping the accesses of each core in their program order. -/
inductive IsInterleaving {α : Type} : List α → List α → List α → Prop
  | nil : IsInterleaving [] [] []
  | left {x : α} {xs ys zs : List α} :
      IsInterleaving xs ys zs → IsInterleaving (x :: xs) ys (x :: zs)
  | right {y : α} {xs ys zs : List α} :
      IsInterleaving xs ys zs → IsInterleaving xs (y :: ys) (y :: zs)

/-- The lost-update schedule: both cores load before either stores. -/
def lostUpdateSchedule : List HandlerAccess :=
  [.loadCount 0, .loadCount 1, .storeCountPlusOne 0, .storeCountPlusOne 1]

/-- Unfolding lemma for handle_ipi on an explicit state: the counter is
bumped modulo 2^32 first, all other fields are untouched, and the logged
actions are the increment, then the acquire load, then the notification
exactly when the loaded reference is non-null. -/
theorem handle_ipi_unfold (d : Option Device) (c : Nat) (dd : Option Nat)
    (hr : Option Nat) (a : Bool) (lg : List Event) :
    handle_ipi ⟨d, c, dd, hr, a, lg⟩ =
      ⟨d, (c + 1) % U32_MOD, dd, hr, a,
        lg ++ ([Event.incrementCounter ((c + 1) % U32_MOD),
          Event.loadDeviceReference d] ++
          (match d with
           | none => []
           | some dev => [Event.signalNotification dev "count"]))⟩ := by
  cases d <;> simp [handle_ipi, logEvent]

/-- C1.  The claim says every failed Probe leaves DeviceReference null, and
that in particular the Busy rollback clears it.  The code violates this:
when set_ipi_handler fails, user_sgi_probe returns -EBUSY directly without
calling release_after_ipi, so ipi_dev keeps the value release-stored just
before registration.  Concretely: from the pristine state, a probe of device
1 with ipi_number 8 whose registration is rejected returns -EBUSY with no
handler registered and no attribute, yet ipi_dev = some 1 — and it stays
non-null even after the platform core reclaims the devm allocation. -/
theorem probe_busy_keeps_device_reference :
    (user_sgi_probe ⟨true, .ok 8, false, 0⟩ 1 initState).1 = -EBUSY ∧
    (user_sgi_probe ⟨true, .ok 8, false, 0⟩ 1 initState).2.ipi_dev = some 1 ∧
    (user_sgi_probe ⟨true, .ok 8, false, 0⟩ 1 initState).2.handlerRegistration = none ∧
    (user_sgi_probe ⟨true, .ok 8, false, 0⟩ 1 initState).2.attrExists = false ∧
    (framework_probe ⟨true, .ok 8, false, 0⟩ 1 initState).2.ipi_dev = some 1 := by
  decide

/-- C2.  The claim says the `count` attribute read is the decimal text of
the unsigned 32-bit counter, including at and above 2^31.  count_show
formats the u32 with the signed "%d" conversion, so at ipi_count = 2^31 it
renders "-2147483648" while the unsigned decimal value is "2147483648". -/
theorem count_show_signed_render :
    count_show { initState with ipi_count := 2147483648 } = "-2147483648" ∧
    count_show_spec { initState with ipi_count := 2147483648 } = "2147483648" ∧
    count_show { initState with ipi_count := 2147483648 } ≠
      count_show_spec { initState with ipi_count := 2147483648 } := by
  decide

/-- C3.  The claim says N handler invocations in any interleaving leave the
counter at initial + N mod 2^32, with an atomic add.  The update
smp_store_release(&ipi_count, ipi_count + 1) is a plain load followed by a
store, and in the interleaving where two cores both load before either
stores — a legal interleaving of the two program-order access sequences —
the counter ends at 1, not (0 + 2) mod 2^32 = 2: one increment is lost. -/
theorem lost_update_two_cores :
    IsInterleaving (handlerAccessSeq 0) (handlerAccessSeq 1) lostUpdateSchedule ∧
    (runAccessList ⟨0, [none, none]⟩ lostUpdateSchedule).counter = 1 ∧
    (0 + 2) % U32_MOD = 2 := by
  refine ⟨?_, by decide, by decide⟩
  show IsInterleaving
    [HandlerAccess.loadCount 0, HandlerAccess.storeCountPlusOne 0]
    [HandlerAccess.loadCount 1, HandlerAccess.storeCountPlusOne 1]
    [HandlerAccess.loadCount 0, HandlerAccess.loadCount 1,
      HandlerAccess.storeCountPlusOne 0, HandlerAccess.storeCountPlusOne 1]
  exact .left (.right (.left (.right .nil)))

/-- C4.  Remove tears down in exactly the claimed order: user_sgi_remove
destroys the attribute (device_remove_file), then stores null into ipi_dev,
then unregisters the handler (clear_ipi_handler), and the devm allocation is
released last, after remove returns — shown by the exact sequence of events
a remove invocation appends to any starting state. -/
theorem remove_teardown_order (s : DriverState) :
    (framework_remove s).2.log =
      s.log ++ [Event.destroyAttribute, Event.storeDeviceReference none,
        Event.unregisterHandler (s.drvdata.getD 0), Event.releaseState] := by
  simp [framework_remove, user_sgi_remove, release_after_attribute_count,
    release_after_ipi, device_remove_file, clear_ipi_handler, devm_release, logEvent]

/-- C5.  Every handle_ipi invocation first increments the counter, then
acquire-loads ipi_dev, then signals the sysfs notification on attribute
"count" exactly when the loaded reference is non-null (event order in the
log), changes nothing else, and is a total function — no error is raised in
either case. -/
theorem handle_ipi_order_and_signal (d : Option Device) (c : Nat)
    (dd : Option Nat) (hr : Option Nat) (a : Bool) (lg : List Event) :
    handle_ipi ⟨d, c, dd, hr, a, lg⟩ =
      ⟨d, (c + 1) % U32_MOD, dd, hr, a,
        lg ++ ([Event.incrementCounter ((c + 1) % U32_MOD),
          Event.loadDeviceReference d] ++
          (match d with
           | none => []
           | some dev => [Event.signalNotification dev "count"]))⟩ ∧
    ((match d with
      | none => ([] : List Event)
      | some dev => [Event.signalNotification dev "count"]) = [] ↔ d = none) := by
  refine ⟨handle_ipi_unfold d c dd hr a lg, ?_⟩
  cases d <;> simp

/-- C6.  When attribute creation fails, user_sgi_probe returns the failure
result of device_create_file (the IOError of the spec) through
release_after_ipi, which before returning stores null into ipi_dev and
unregisters the handler that this probe had registered — from any starting
state. -/
theorem probe_attr_failure_rollback (n : Nat) (pdev : Device)
    (s : DriverState) (r : Int) (hne : r ≠ 0) :
    (user_sgi_probe ⟨true, .ok n, true, r⟩ pdev s).1 = r ∧
    (user_sgi_probe ⟨true, .ok n, true, r⟩ pdev s).2.ipi_dev = none ∧
    (user_sgi_probe ⟨true, .ok n, true, r⟩ pdev s).2.handlerRegistration = none := by
  simp [user_sgi_probe, allocate_device_data, get_ipi_number, set_ipi_handler,
    device_create_file, release_after_ipi, clear_ipi_handler, logEvent, hne]

/-- Witness for C6 at ipi_number 8, device 1, failure result -5, from the
pristine state. -/
theorem probe_attr_failure_rollback_witness :
    (user_sgi_probe ⟨true, .ok 8, true, -5⟩ 1 initState).1 = -5 ∧
    (user_sgi_probe ⟨true, .ok 8, true, -5⟩ 1 initState).2.ipi_dev = none ∧
    (user_sgi_probe ⟨true, .ok 8, true, -5⟩ 1 initState).2.handlerRegistration = none :=
  probe_attr_failure_rollback 8 1 initState (-5) (by decide)

/-- C7.  The counter starts at 0 at module load, every handler invocation
advances it by exactly 1 modulo 2^32, the stored value always stays below
2^32, and at the top value 4294967295 the next increment wraps to 0;
handle_ipi is total, so an increment never fails. -/
theorem counter_u32_semantics :
    initState.ipi_count = 0 ∧
    (∀ s : DriverState, (handle_ipi s).ipi_count = (s.ipi_count + 1) % U32_MOD) ∧
    (∀ s : DriverState, (handle_ipi s).ipi_count < U32_MOD) ∧
    (handle_ipi { initState with ipi_count := 4294967295 }).ipi_count = 0 := by
  refine ⟨rfl, ?_, ?_, ?_⟩
  · intro s
    obtain ⟨d, c, dd, hr, a, lg⟩ := s
    rw [handle_ipi_unfold]
  · intro s
    obtain ⟨d, c, dd, hr, a, lg⟩ := s
    rw [handle_ipi_unfold]
    exact Nat.mod_lt _ (by decide)
  · decide

/-- C8.  user_sgi_remove always returns 0 (through release_after_attribute_count,
which passes the result 0 unmodified), for every state; and after removing
the state produced by a successful probe, ipi_dev is null, no handler is
registered, the attribute is gone, the devm allocation is released, and a
following probe with the same ipi_number succeeds again. -/
theorem remove_succeeds_and_resets (n : Nat) (pdev : Device) :
    (∀ s : DriverState, (framework_remove s).1 = 0) ∧
    (user_sgi_probe ⟨true, .ok n, true, 0⟩ pdev initState).1 = 0 ∧
    (framework_remove
      (user_sgi_probe ⟨true, .ok n, true, 0⟩ pdev initState).2).2.ipi_dev = none ∧
    (framework_remove
      (user_sgi_probe ⟨true, .ok n, true, 0⟩ pdev initState).2).2.handlerRegistration = none ∧
    (framework_remove
      (user_sgi_probe ⟨true, .ok n, true, 0⟩ pdev initState).2).2.attrExists = false ∧
    (framework_remove
      (user_sgi_probe ⟨true, .ok n, true, 0⟩ pdev initState).2).2.drvdata = none ∧
    (framework_probe ⟨true, .ok n, true, 0⟩ pdev
      (framework_remove
        (user_sgi_probe ⟨true, .ok n, true, 0⟩ pdev initState).2).2).1 = 0 := by
  refine ⟨?_, ?_⟩
  · intro s
    simp [framework_remove, user_sgi_remove, release_after_attribute_count,
      release_after_ipi, device_remove_file, clear_ipi_handler, devm_release, logEvent]
  · simp [framework_probe, framework_remove, user_sgi_probe, user_sgi_remove,
      release_after_attribute_count, release_after_ipi, device_remove_file,
      clear_ipi_handler, devm_release, allocate_device_data, get_ipi_number,
      set_ipi_handler, device_create_file, logEvent, initState]

/-- C9.  On a state whose device reference is null, handle_ipi still
advances the counter by 1 modulo 2^32 — the increment is logged before the
load — and appends no notification event: the counter advances while no
notification is sent. -/
theorem handler_advances_counter_without_device (c : Nat) (dd : Option Nat)
    (hr : Option Nat) (a : Bool) (lg : List Event) :
    handle_ipi ⟨none, c, dd, hr, a, lg⟩ =
      ⟨none, (c + 1) % U32_MOD, dd, hr, a,
        lg ++ [Event.incrementCounter ((c + 1) % U32_MOD),
          Event.loadDeviceReference none]⟩ := by
  simp [handle_ipi, logEvent]

/-- C10.  When devm_kzalloc fails, allocate_device_data returns -ENOMEM and
user_sgi_probe returns it immediately: the entire state — ipi_dev (still
null when starting clean), handler registration, attribute, drvdata, log —
is exactly the state probe was entered with, whatever the other primitive
outcomes would have been. -/
theorem probe_alloc_failure (prop : Except Int Nat) (sourceFree : Bool)
    (cf : Int) (pdev : Device) (s : DriverState) :
    user_sgi_probe ⟨false, prop, sourceFree, cf⟩ pdev s = (-ENOMEM, s) := by
  simp [user_sgi_probe, allocate_device_data, ENOMEM]

end UserSgi
